import Mathlib

/-!
Verification development for the invoice serialization layer
(`invoice_project/invoices/serializers.py`).

The module defines two serializers:

* `InvoiceDetailSerializer` — field validators for one line item
  (`validate_quantity`, `validate_unit_price`, `validate_description`)
  and a derived field `line_total` computed by `get_line_total`.

* `InvoiceSerializer` — aggregate validation (`validate` calling
  `_validate_details`, `_validate_invoice_number`,
  `_validate_customer_name`, `_validate_date` in that order) and the
  persistence orchestration `create`, `update`, `_create_invoice_details`
  and `delete`.

The embedding models the Django ORM collaborator as an explicit
`Storage` value: a list of invoice header rows, a list of detail rows,
and the counters that will hand out the next fresh primary keys.
Python `Decimal` prices are modelled as rationals (`ℚ`), integers as
`Int`, dates as an opaque value (`Nat`) — a `datetime.date` object is
always truthy in Python, so `if not date` distinguishes only
present/absent, which `Option` captures.  A `ValidationError` or an
`AttributeError` escaping a function is modelled with `Except PyError`.
-/

namespace Invoices

/-- Errors that can escape the serializer code: DRF `ValidationError`
with its message, or a raw Python `AttributeError` (e.g. `None.strip()`). -/
inductive PyError where
  | validationError (msg : String)
  | attributeError
deriving Repr, DecidableEq

/-- A stored invoice header row (`Invoice` model: fields per the
serializer's `Meta.fields`: `id`, `invoice_number`, `customer_name`,
`date`). -/
structure Invoice where
  id : Nat
  invoice_number : String
  customer_name : String
  date : Nat
deriving Repr, DecidableEq

/-- A stored line-item row (`InvoiceDetail` model: `id`, foreign key
`invoice`, `description`, `quantity`, `unit_price`). -/
structure InvoiceDetail where
  id : Nat
  invoice : Nat
  description : String
  quantity : Int
  unit_price : ℚ
deriving Repr, DecidableEq

/-- The payload of one submitted line item, as it appears inside
`validated_data['details']` (no `id`: `line_total` is read-only and
`id` is assigned by storage). -/
structure DetailData where
  description : String
  quantity : Int
  unit_price : ℚ
deriving Repr, DecidableEq

/-- The ORM collaborator's state: all invoice rows, all detail rows,
and the next primary keys it will assign. -/
structure Storage where
  invoices : List Invoice
  details : List InvoiceDetail
  nextInvoiceId : Nat
  nextDetailId : Nat
deriving Repr

/-- The payload carried by a stored detail row (used to compare stored
rows against submitted ones). -/
def detailPayload (r : InvoiceDetail) : DetailData :=
  ⟨r.description, r.quantity, r.unit_price⟩

/-- Helper for `pyStrip`: drop the leading whitespace characters. -/
def dropLeadingWS : List Char → List Char
  | [] => []
  | c :: cs => if c.isWhitespace then dropLeadingWS cs else c :: cs

/-- Python `str.strip()`: the string with leading and trailing
whitespace removed (drop leading, reverse, drop the former trailing,
reverse back). -/
def pyStrip (s : String) : String :=
  ⟨(dropLeadingWS ((dropLeadingWS s.data).reverse)).reverse⟩

/-! ### InvoiceDetailSerializer -/

/-- `get_line_total(self, obj)`: `return obj.quantity * obj.unit_price`.
The serializer declares `line_total` as a `SerializerMethodField`, so it
is computed on every serialization and never stored (`InvoiceDetail`
rows carry no such column). -/
def get_line_total (obj : InvoiceDetail) : ℚ :=
  (obj.quantity : ℚ) * obj.unit_price

/-- What `InvoiceDetailSerializer` outputs for one row
(`fields = ['id', 'description', 'quantity', 'unit_price', 'line_total']`). -/
structure DetailOut where
  id : Nat
  description : String
  quantity : Int
  unit_price : ℚ
  line_total : ℚ
deriving Repr, DecidableEq

/-- Serializing one stored row: the stored columns plus the computed
`line_total`; the row itself is not modified (serialization is pure). -/
def serializeDetail (row : InvoiceDetail) : DetailOut :=
  ⟨row.id, row.description, row.quantity, row.unit_price, get_line_total row⟩

/-- `validate_quantity(self, value)`: raises
`ValidationError("Quantity must be a positive integer.")` when
`value <= 0`, else returns `value`. -/
def validate_quantity (value : Int) : Except String Int :=
  if value ≤ 0 then .error "Quantity must be a positive integer."
  else .ok value

/-- `validate_unit_price(self, value)`: raises
`ValidationError("Unit price must be a positive value.")` when
`value <= 0`, else returns `value`. -/
def validate_unit_price (value : ℚ) : Except String ℚ :=
  if value ≤ 0 then .error "Unit price must be a positive value."
  else .ok value

/-- `validate_description(self, value)`: `if not value.strip()` raises
`ValidationError("Description cannot be empty or whitespace.")`, else
returns `value`.  A Python string is falsy exactly when empty, so the
test is: the stripped value is the empty string. -/
def validate_description (value : String) : Except String String :=
  if pyStrip value = "" then .error "Description cannot be empty or whitespace."
  else .ok value

/-! ### InvoiceSerializer: aggregate validation -/

/-- The `data` dictionary seen by `InvoiceSerializer.validate`: each
field is read with `data.get(key)`, which yields `None` when the key is
absent, hence the `Option`s. -/
structure InvoiceInput where
  invoice_number : Option String
  customer_name : Option String
  date : Option Nat
  details : Option (List DetailData)
deriving Repr, DecidableEq

/-- `_validate_details(self, details)`: `if not details` raises
`ValidationError("Invoice must have at least one detail item.")`.
`None` and the empty list are the falsy cases. -/
def _validate_details (details : Option (List DetailData)) : Except PyError Unit :=
  match details with
  | none => .error (.validationError "Invoice must have at least one detail item.")
  | some [] => .error (.validationError "Invoice must have at least one detail item.")
  | some (_ :: _) => .ok ()

/-- `Invoice.objects.filter(invoice_number=invoice_number).exists()`:
true iff some stored invoice row has the submitted number.  With
`invoice_number=None` the ORM filter becomes `IS NULL`, which matches no
stored row (the column holds strings). -/
def invoiceNumberTaken (invoices : List Invoice) (invoice_number : Option String) : Bool :=
  invoices.any (fun i => some i.invoice_number = invoice_number)

/-- `_validate_invoice_number(self, invoice_number)`: raises
`ValidationError("Invoice number must be unique.")` when the filter
finds an existing row.  The check takes no `instance` argument: it is
performed identically on create and update, never excluding the record
being updated. -/
def _validate_invoice_number (invoices : List Invoice) (invoice_number : Option String) :
    Except PyError Unit :=
  if invoiceNumberTaken invoices invoice_number then
    .error (.validationError "Invoice number must be unique.")
  else .ok ()

/-- `_validate_customer_name(self, customer_name)`:
`if not customer_name.strip()`.  When `customer_name` is `None`,
`None.strip()` raises `AttributeError` before any `ValidationError` can
be produced; for a string, blank (stripped-empty) raises
`ValidationError("Customer name cannot be empty.")`. -/
def _validate_customer_name (customer_name : Option String) : Except PyError Unit :=
  match customer_name with
  | none => .error .attributeError
  | some s =>
      if pyStrip s = "" then .error (.validationError "Customer name cannot be empty.")
      else .ok ()

/-- `_validate_date(self, date)`: `if not date` raises
`ValidationError("Date cannot be empty.")`.  A `datetime.date` object is
always truthy, so the test fires exactly when the key was absent. -/
def _validate_date (date : Option Nat) : Except PyError Unit :=
  match date with
  | none => .error (.validationError "Date cannot be empty.")
  | some _ => .ok ()

/-- `InvoiceSerializer.validate(self, data)`: runs the four private
checks in source order; the first raised error propagates; on success
`data` is returned unchanged. -/
def validate (invoices : List Invoice) (data : InvoiceInput) : Except PyError InvoiceInput := do
  _validate_details data.details
  _validate_invoice_number invoices data.invoice_number
  _validate_customer_name data.customer_name
  _validate_date data.date
  return data

/-! ### InvoiceSerializer: persistence -/

/-- `_create_invoice_details(self, invoice, details_data)`: for each
submitted item, in order, `InvoiceDetail.objects.create(invoice=invoice,
**detail_data)` — a fresh row keyed to the parent invoice. -/
def _create_invoice_details (st : Storage) (invoiceId : Nat) :
    List DetailData → Storage
  | [] => st
  | d :: rest =>
      let row : InvoiceDetail :=
        ⟨st.nextDetailId, invoiceId, d.description, d.quantity, d.unit_price⟩
      _create_invoice_details
        { st with details := st.details ++ [row], nextDetailId := st.nextDetailId + 1 }
        invoiceId rest

/-- `validated_data` as consumed by `create`: every header field is a
required serializer field, so all are present after validation. -/
structure CreateData where
  invoice_number : String
  customer_name : String
  date : Nat
  details : List DetailData
deriving Repr, DecidableEq

/-- `InvoiceSerializer.create(self, validated_data)`: pop `details`,
`Invoice.objects.create(**validated_data)` (a fresh header row), then
`_create_invoice_details`; returns the new invoice. -/
def create (st : Storage) (validated_data : CreateData) : Storage × Invoice :=
  let invoice : Invoice :=
    ⟨st.nextInvoiceId, validated_data.invoice_number,
      validated_data.customer_name, validated_data.date⟩
  let st1 : Storage :=
    { st with invoices := st.invoices ++ [invoice], nextInvoiceId := st.nextInvoiceId + 1 }
  (_create_invoice_details st1 invoice.id validated_data.details, invoice)

/-- `validated_data` as consumed by `update`: `details` is popped first;
the header fields are read with `validated_data.get(key, existing)`, so
each may be absent. -/
structure UpdateData where
  invoice_number : Option String
  customer_name : Option String
  date : Option Nat
  details : List DetailData
deriving Repr, DecidableEq

/-- `InvoiceSerializer.update(self, instance, validated_data)`:
overwrite each header field with `validated_data.get(key,
existing value)`, `instance.save()`, then
`instance.details.all().delete()` (every row keyed to this invoice) and
`_create_invoice_details` for the submitted collection; returns the
instance. -/
def update (st : Storage) (inst : Invoice) (validated_data : UpdateData) :
    Storage × Invoice :=
  let inst' : Invoice :=
    { inst with
        invoice_number := validated_data.invoice_number.getD inst.invoice_number
        customer_name := validated_data.customer_name.getD inst.customer_name
        date := validated_data.date.getD inst.date }
  let st1 : Storage :=
    { st with invoices := st.invoices.map (fun i => if i.id = inst.id then inst' else i) }
  let st2 : Storage :=
    { st1 with details := st1.details.filter (fun d => d.invoice ≠ inst.id) }
  (_create_invoice_details st2 inst'.id validated_data.details, inst')

/-- First half of `delete`: `instance.details.all().delete()` — remove
every detail row keyed to this invoice, touching nothing else. -/
def deleteDetailsStep (st : Storage) (inst : Invoice) : Storage :=
  { st with details := st.details.filter (fun d => d.invoice ≠ inst.id) }

/-- Second half of `delete`: `instance.delete()` — remove the header row. -/
def deleteHeaderStep (st : Storage) (inst : Invoice) : Storage :=
  { st with invoices := st.invoices.filter (fun i => i.id ≠ inst.id) }

/-- `InvoiceSerializer.delete(self, instance)`: details first, then the
header, then return the confirmation message. -/
def delete (st : Storage) (inst : Invoice) : Storage × String :=
  (deleteHeaderStep (deleteDetailsStep st inst) inst,
    "Invoice and its details deleted successfully.")

/-- The rows `_create_invoice_details` appends when the next fresh key
is `startId`: one row per submitted item, in order, keyed to
`invoiceId`. -/
def newRows (startId invoiceId : Nat) : List DetailData → List InvoiceDetail
  | [] => []
  | d :: rest =>
      ⟨startId, invoiceId, d.description, d.quantity, d.unit_price⟩
        :: newRows (startId + 1) invoiceId rest

/-- `if not details` is true exactly for an absent key or an empty list. -/
def detailsMissing : Option (List DetailData) → Bool
  | none => true
  | some [] => true
  | some (_ :: _) => false

/-- Sample stored invoice used to instantiate theorems with hypotheses. -/
def sampleInvoice : Invoice := ⟨1, "INV-001", "Acme", 20240101⟩

/-- Sample stored line item of `sampleInvoice`. -/
def sampleDetail (i : Nat) : InvoiceDetail := ⟨i, 1, "Widget", 2, 5⟩

/-- Sample storage: one invoice with three line items. -/
def sampleStorage : Storage :=
  ⟨[sampleInvoice], [sampleDetail 1, sampleDetail 2, sampleDetail 3], 2, 4⟩

/-- Sample update payload: one submitted line item, header fields absent. -/
def sampleUpdate : UpdateData := ⟨none, none, none, [⟨"Gadget", 1, 3⟩]⟩

/-! ### Helper lemmas -/

lemma create_details_invoices (ds : List DetailData) (st : Storage) (invoiceId : Nat) :
    (_create_invoice_details st invoiceId ds).invoices = st.invoices := by
  induction ds generalizing st with
  | nil => rfl
  | cons d rest ih => simp [_create_invoice_details, ih]

lemma create_details_details (ds : List DetailData) (st : Storage) (invoiceId : Nat) :
    (_create_invoice_details st invoiceId ds).details
      = st.details ++ newRows st.nextDetailId invoiceId ds := by
  induction ds generalizing st with
  | nil => simp [_create_invoice_details, newRows]
  | cons d rest ih => simp [_create_invoice_details, newRows, ih]

lemma newRows_payload (ds : List DetailData) (startId invoiceId : Nat) :
    (newRows startId invoiceId ds).map detailPayload = ds := by
  induction ds generalizing startId with
  | nil => rfl
  | cons d rest ih => simp [newRows, detailPayload, ih]

lemma newRows_length (ds : List DetailData) (startId invoiceId : Nat) :
    (newRows startId invoiceId ds).length = ds.length := by
  induction ds generalizing startId with
  | nil => rfl
  | cons d rest ih => simp [newRows, ih]

lemma newRows_invoice (ds : List DetailData) (startId invoiceId : Nat) :
    ∀ r ∈ newRows startId invoiceId ds, r.invoice = invoiceId := by
  induction ds generalizing startId with
  | nil => simp [newRows]
  | cons d rest ih =>
      intro r hr
      simp only [newRows, List.mem_cons] at hr
      rcases hr with h | h
      · simp [h]
      · exact ih (startId + 1) r h

lemma newRows_id_ge (ds : List DetailData) (startId invoiceId : Nat) :
    ∀ r ∈ newRows startId invoiceId ds, startId ≤ r.id := by
  induction ds generalizing startId with
  | nil => simp [newRows]
  | cons d rest ih =>
      intro r hr
      simp only [newRows, List.mem_cons] at hr
      rcases hr with h | h
      · simp [h]
      · exact Nat.le_of_succ_le (ih (startId + 1) r h)

lemma ebind_ok {α β : Type} (a : α) (f : α → Except PyError β) :
    (Except.ok a >>= f) = f a := rfl

lemma ebind_error {α β : Type} (e : PyError) (f : α → Except PyError β) :
    ((Except.error e : Except PyError α) >>= f) = Except.error e := rfl

lemma emap_ok {α β : Type} (g : α → β) (a : α) :
    (g <$> (Except.ok a : Except PyError α)) = Except.ok (g a) := rfl

lemma error_msg_ne {α : Type} {m1 m2 : String} (h : m1 ≠ m2)
    (heq : (Except.error (PyError.validationError m1) : Except PyError α)
      = Except.error (PyError.validationError m2)) : False := by
  injection heq with h'
  injection h' with h''
  exact h h''

/-! ### Claim theorems -/

/-- C5: `get_line_total` returns exactly quantity × unit_price, the
serialized output's `line_total` is recomputed from the stored columns
(the row itself stores no total), and quantity 3 at unit price 2.50
yields 7.50. -/
theorem get_line_total_spec (row : InvoiceDetail) :
    get_line_total row = (row.quantity : ℚ) * row.unit_price
    ∧ serializeDetail row
        = ⟨row.id, row.description, row.quantity, row.unit_price,
            (row.quantity : ℚ) * row.unit_price⟩
    ∧ get_line_total ⟨7, 1, "Widget", 3, (2.5 : ℚ)⟩ = (7.5 : ℚ) := by
  refine ⟨rfl, rfl, ?_⟩
  norm_num [get_line_total]

/-- C6: `validate_quantity` fails with its message exactly when the
value is ≤ 0 and returns the value unchanged exactly when it is
positive; the same for `validate_unit_price`. -/
theorem validate_quantity_unit_price_spec (q : Int) (p : ℚ) :
    (validate_quantity q = .ok q ↔ 0 < q)
    ∧ (validate_quantity q = .error "Quantity must be a positive integer." ↔ q ≤ 0)
    ∧ (validate_unit_price p = .ok p ↔ 0 < p)
    ∧ (validate_unit_price p = .error "Unit price must be a positive value." ↔ p ≤ 0) := by
  unfold validate_quantity validate_unit_price
  refine ⟨?_, ?_, ?_, ?_⟩
  · split <;> rename_i h
    · exact iff_of_false (by simp) (by omega)
    · exact iff_of_true rfl (by omega)
  · split <;> rename_i h
    · exact iff_of_true rfl h
    · exact iff_of_false (by simp) h
  · split <;> rename_i h
    · exact iff_of_false (by simp) (not_lt.mpr h)
    · exact iff_of_true rfl (not_le.mp h)
  · split <;> rename_i h
    · exact iff_of_true rfl h
    · exact iff_of_false (by simp) h

/-- C7: `validate_description` fails with its message exactly when the
trimmed value is empty, and returns the value unchanged otherwise. -/
theorem validate_description_spec (s : String) :
    (validate_description s = .error "Description cannot be empty or whitespace."
        ↔ pyStrip s = "")
    ∧ (validate_description s = .ok s ↔ pyStrip s ≠ "") := by
  unfold validate_description
  constructor <;> split <;> simp_all

lemma invoiceNumberTaken_iff (invoices : List Invoice) (m : Option String) :
    invoiceNumberTaken invoices m = true
      ↔ ∃ i ∈ invoices, m = some i.invoice_number := by
  unfold invoiceNumberTaken
  rw [List.any_eq_true]
  constructor
  · rintro ⟨i, hi, hd⟩
    exact ⟨i, hi, (of_decide_eq_true hd).symm⟩
  · rintro ⟨i, hi, hd⟩
    exact ⟨i, hi, decide_eq_true hd.symm⟩

/-- C2: the uniqueness check fails with "Invoice number must be unique."
iff some stored invoice carries the submitted number, and succeeds
otherwise; the check takes no current instance, so on update an
invoice's own stored number makes it fail against itself; at the
aggregate level, once the details check passes, `validate` fails with
that message exactly when a stored invoice has the submitted number. -/
theorem validate_invoice_number_spec (invoices : List Invoice) (data : InvoiceInput) :
    (_validate_invoice_number invoices data.invoice_number
        = .error (.validationError "Invoice number must be unique.")
      ↔ ∃ i ∈ invoices, data.invoice_number = some i.invoice_number)
    ∧ (_validate_invoice_number invoices data.invoice_number = .ok ()
      ↔ ∀ i ∈ invoices, data.invoice_number ≠ some i.invoice_number)
    ∧ (∀ inst ∈ invoices,
        _validate_invoice_number invoices (some inst.invoice_number)
          = .error (.validationError "Invoice number must be unique."))
    ∧ (detailsMissing data.details = false →
        (validate invoices data
            = .error (.validationError "Invoice number must be unique.")
          ↔ ∃ i ∈ invoices, data.invoice_number = some i.invoice_number)) := by
  obtain ⟨num, name, dt, det⟩ := data
  refine ⟨?_, ?_, ?_, ?_⟩
  · unfold _validate_invoice_number
    split <;> rename_i h
    · exact iff_of_true rfl ((invoiceNumberTaken_iff invoices num).mp h)
    · exact iff_of_false (by simp)
        (fun hex => h ((invoiceNumberTaken_iff invoices num).mpr hex))
  · unfold _validate_invoice_number
    split <;> rename_i h
    · refine iff_of_false (by simp) ?_
      intro hall
      obtain ⟨i, hi, hd⟩ := (invoiceNumberTaken_iff invoices num).mp h
      exact hall i hi hd
    · refine iff_of_true rfl ?_
      intro i hi hd
      exact h ((invoiceNumberTaken_iff invoices num).mpr ⟨i, hi, hd⟩)
  · intro inst hmem
    unfold _validate_invoice_number
    split <;> rename_i h
    · rfl
    · exact absurd
        ((invoiceNumberTaken_iff invoices (some inst.invoice_number)).mpr
          ⟨inst, hmem, rfl⟩) h
  · intro h1
    rcases det with _ | l
    · simp [detailsMissing] at h1
    rcases l with _ | ⟨d, rest⟩
    · simp [detailsMissing] at h1
    cases hT : invoiceNumberTaken invoices num with
    | true =>
        refine iff_of_true ?_ ((invoiceNumberTaken_iff invoices num).mp hT)
        simp [validate, _validate_details, _validate_invoice_number, hT,
          ebind_ok, ebind_error]
    | false =>
        refine iff_of_false ?_
          (fun hex => by simp [(invoiceNumberTaken_iff invoices num).mpr hex] at hT)
        intro hv
        rcases name with _ | s
        · simp [validate, _validate_details, _validate_invoice_number, hT,
            _validate_customer_name, ebind_ok, ebind_error] at hv
        · by_cases hs : pyStrip s = ""
          · have hv' : (Except.error
                (PyError.validationError "Customer name cannot be empty.")
                  : Except PyError InvoiceInput)
                = Except.error (.validationError "Invoice number must be unique.") := by
              rw [← hv]
              simp [validate, _validate_details, _validate_invoice_number, hT,
                _validate_customer_name, hs, ebind_ok, ebind_error]
            exact error_msg_ne (by decide) hv'
          · rcases dt with _ | v
            · have hv' : (Except.error
                  (PyError.validationError "Date cannot be empty.")
                    : Except PyError InvoiceInput)
                  = Except.error (.validationError "Invoice number must be unique.") := by
                rw [← hv]
                simp [validate, _validate_details, _validate_invoice_number, hT,
                  _validate_customer_name, hs, _validate_date, ebind_ok, ebind_error]
              exact error_msg_ne (by decide) hv'
            · simp [validate, _validate_details, _validate_invoice_number, hT,
                _validate_customer_name, hs, _validate_date,
                ebind_ok, ebind_error, emap_ok] at hv

/-- C2 witness: with one stored invoice numbered "INV-001", submitting
"INV-001" (as its own update would) fails with the uniqueness error. -/
theorem validate_invoice_number_spec_witness :
    _validate_invoice_number [sampleInvoice] (some sampleInvoice.invoice_number)
      = .error (.validationError "Invoice number must be unique.") :=
  (validate_invoice_number_spec [sampleInvoice]
      ⟨some sampleInvoice.invoice_number, none, none, none⟩).2.2.1
    sampleInvoice (by simp)

/-- C3: `validate` runs details-presence, number-uniqueness,
customer-name non-blank, date-presence in that fixed order; the first
failing check's error is the result (the later checks never influence
it), and when all pass the input is returned unchanged. -/
theorem validate_check_order (invoices : List Invoice) (data : InvoiceInput) :
    (detailsMissing data.details = true →
      validate invoices data
        = .error (.validationError "Invoice must have at least one detail item."))
    ∧ (detailsMissing data.details = false →
        invoiceNumberTaken invoices data.invoice_number = true →
        validate invoices data = .error (.validationError "Invoice number must be unique."))
    ∧ (detailsMissing data.details = false →
        invoiceNumberTaken invoices data.invoice_number = false →
        ∀ s, data.customer_name = some s → pyStrip s = "" →
        validate invoices data = .error (.validationError "Customer name cannot be empty."))
    ∧ (detailsMissing data.details = false →
        invoiceNumberTaken invoices data.invoice_number = false →
        ∀ s, data.customer_name = some s → pyStrip s ≠ "" →
        data.date = none →
        validate invoices data = .error (.validationError "Date cannot be empty."))
    ∧ (detailsMissing data.details = false →
        invoiceNumberTaken invoices data.invoice_number = false →
        ∀ s, data.customer_name = some s → pyStrip s ≠ "" →
        ∀ v, data.date = some v →
        validate invoices data = .ok data) := by
  obtain ⟨num, name, dt, det⟩ := data
  refine ⟨?_, ?_, ?_, ?_, ?_⟩
  · intro h1
    rcases det with _ | l
    · rfl
    · rcases l with _ | ⟨d, rest⟩
      · rfl
      · simp [detailsMissing] at h1
  · intro h1 h2
    rcases det with _ | l
    · simp [detailsMissing] at h1
    · rcases l with _ | ⟨d, rest⟩
      · simp [detailsMissing] at h1
      · simp [validate, _validate_details, _validate_invoice_number, h2,
          ebind_ok, ebind_error]
  · intro h1 h2 s hs hblank
    subst hs
    rcases det with _ | l
    · simp [detailsMissing] at h1
    · rcases l with _ | ⟨d, rest⟩
      · simp [detailsMissing] at h1
      · simp [validate, _validate_details, _validate_invoice_number, h2,
          _validate_customer_name, hblank, ebind_ok, ebind_error]
  · intro h1 h2 s hs hfilled hdate
    subst hs
    subst hdate
    rcases det with _ | l
    · simp [detailsMissing] at h1
    · rcases l with _ | ⟨d, rest⟩
      · simp [detailsMissing] at h1
      · simp [validate, _validate_details, _validate_invoice_number, h2,
          _validate_customer_name, hfilled, _validate_date, ebind_ok, ebind_error]
  · intro h1 h2 s hs hfilled v hdate
    subst hs
    subst hdate
    rcases det with _ | l
    · simp [detailsMissing] at h1
    · rcases l with _ | ⟨d, rest⟩
      · simp [detailsMissing] at h1
      · simp [validate, _validate_details, _validate_invoice_number, h2,
          _validate_customer_name, hfilled, _validate_date, ebind_ok, ebind_error, emap_ok]

/-- C3 witness: a fully valid input against empty storage passes every
check in order and is returned unchanged. -/
theorem validate_check_order_witness :
    validate [] ⟨some "INV-9", some "Acme", some 1, some [⟨"W", 1, 2⟩]⟩
      = .ok ⟨some "INV-9", some "Acme", some 1, some [⟨"W", 1, 2⟩]⟩ :=
  (validate_check_order [] ⟨some "INV-9", some "Acme", some 1, some [⟨"W", 1, 2⟩]⟩
    ).2.2.2.2 rfl rfl "Acme" rfl (by decide) 1 rfl

/-- C10: when details-presence and uniqueness pass but `customer_name`
is absent, `validate` raises `AttributeError` (from `None.strip()`)
rather than a `ValidationError`; the blank-name `ValidationError` arises
only from a present string whose trimmed form is empty. -/
theorem validate_none_customer_name (invoices : List Invoice) (data : InvoiceInput) :
    (detailsMissing data.details = false →
      invoiceNumberTaken invoices data.invoice_number = false →
      data.customer_name = none →
      validate invoices data = .error .attributeError)
    ∧ (validate invoices data = .error (.validationError "Customer name cannot be empty.") →
        ∃ s, data.customer_name = some s ∧ pyStrip s = "") := by
  obtain ⟨num, name, dt, det⟩ := data
  constructor
  · intro h1 h2 hn
    subst hn
    rcases det with _ | l
    · simp [detailsMissing] at h1
    · rcases l with _ | ⟨d, rest⟩
      · simp [detailsMissing] at h1
      · simp [validate, _validate_details, _validate_invoice_number, h2,
          _validate_customer_name, ebind_ok, ebind_error]
  · intro hv
    rcases det with _ | l
    · have hv' : (Except.error
          (PyError.validationError "Invoice must have at least one detail item.")
            : Except PyError InvoiceInput)
          = Except.error (.validationError "Customer name cannot be empty.") := hv
      exact (error_msg_ne (by decide) hv').elim
    · rcases l with _ | ⟨d, rest⟩
      · have hv' : (Except.error
            (PyError.validationError "Invoice must have at least one detail item.")
              : Except PyError InvoiceInput)
            = Except.error (.validationError "Customer name cannot be empty.") := hv
        exact (error_msg_ne (by decide) hv').elim
      · cases h2 : invoiceNumberTaken invoices num with
        | true =>
            have hv' : (Except.error
                (PyError.validationError "Invoice number must be unique.")
                  : Except PyError InvoiceInput)
                = Except.error (.validationError "Customer name cannot be empty.") := by
              rw [← hv]
              simp [validate, _validate_details, _validate_invoice_number, h2,
                ebind_ok, ebind_error]
            exact (error_msg_ne (by decide) hv').elim
        | false =>
            rcases name with _ | s
            · simp [validate, _validate_details, _validate_invoice_number, h2,
                _validate_customer_name, ebind_ok, ebind_error] at hv
            · by_cases hs : pyStrip s = ""
              · exact ⟨s, rfl, hs⟩
              · rcases dt with _ | v
                · have hv' : (Except.error
                      (PyError.validationError "Date cannot be empty.")
                        : Except PyError InvoiceInput)
                      = Except.error (.validationError "Customer name cannot be empty.") := by
                    rw [← hv]
                    simp [validate, _validate_details, _validate_invoice_number, h2,
                      _validate_customer_name, hs, _validate_date, ebind_ok, ebind_error]
                  exact (error_msg_ne (by decide) hv').elim
                · simp [validate, _validate_details, _validate_invoice_number, h2,
                    _validate_customer_name, hs, _validate_date,
                    ebind_ok, ebind_error, emap_ok] at hv

/-- C10 witness: absent customer name with otherwise-passing earlier
checks yields `AttributeError`. -/
theorem validate_none_customer_name_witness :
    validate [] ⟨some "INV-9", none, some 1, some [⟨"W", 1, 2⟩]⟩
      = .error .attributeError :=
  (validate_none_customer_name [] ⟨some "INV-9", none, some 1, some [⟨"W", 1, 2⟩]⟩
    ).1 rfl rfl rfl

/-- C4: `create` appends the header as a new invoice row keyed with the
fresh identifier, then appends exactly N new detail rows — one per
submitted item, in submission order, each keyed to the new invoice —
and returns the constructed invoice. -/
theorem create_persists (st : Storage) (vd : CreateData) :
    ((create st vd).2
        = ⟨st.nextInvoiceId, vd.invoice_number, vd.customer_name, vd.date⟩)
    ∧ (create st vd).1.invoices = st.invoices ++ [(create st vd).2]
    ∧ (create st vd).1.details
        = st.details ++ newRows st.nextDetailId st.nextInvoiceId vd.details
    ∧ ((create st vd).1.details.drop st.details.length).map detailPayload = vd.details
    ∧ (create st vd).1.details.length = st.details.length + vd.details.length
    ∧ ∀ r ∈ (create st vd).1.details.drop st.details.length,
        r.invoice = (create st vd).2.id := by
  have hdet : (create st vd).1.details
      = st.details ++ newRows st.nextDetailId st.nextInvoiceId vd.details := by
    simp [create, create_details_details]
  refine ⟨rfl, ?_, hdet, ?_, ?_, ?_⟩
  · simp [create, create_details_invoices]
  · rw [hdet, List.drop_left, newRows_payload]
  · rw [hdet]
    simp [newRows_length]
  · rw [hdet, List.drop_left]
    exact fun r hr => newRows_invoice _ _ _ r hr

/-- C4 witness: creating an invoice with one line item on the sample
storage keys the freshly appended detail row to the new invoice id. -/
theorem create_persists_witness :
    (⟨4, 2, "W", 1, 2⟩ : InvoiceDetail).invoice
      = (create sampleStorage ⟨"INV-002", "Bob", 2, [⟨"W", 1, 2⟩]⟩).2.id :=
  (create_persists sampleStorage ⟨"INV-002", "Bob", 2, [⟨"W", 1, 2⟩]⟩).2.2.2.2.2
    ⟨4, 2, "W", 1, 2⟩ (by decide)

/-- C1: after `update`, the detail rows keyed to the updated invoice are
exactly the submitted ones, in order — N of them — and every detail row
the invoice had before is gone from storage, regardless of any match
between old and new items. -/
theorem update_full_replace (st : Storage) (inst : Invoice) (vd : UpdateData)
    (hfresh : ∀ r ∈ st.details, r.id < st.nextDetailId) :
    (((update st inst vd).1.details.filter (fun r => r.invoice = inst.id)).map detailPayload
        = vd.details)
    ∧ ((update st inst vd).1.details.filter (fun r => r.invoice = inst.id)).length
        = vd.details.length
    ∧ ∀ r ∈ st.details, r.invoice = inst.id → r ∉ (update st inst vd).1.details := by
  have hdet : (update st inst vd).1.details
      = st.details.filter (fun r => r.invoice ≠ inst.id)
        ++ newRows st.nextDetailId inst.id vd.details := by
    simp [update, create_details_details]
  have hfilter : (update st inst vd).1.details.filter (fun r => r.invoice = inst.id)
      = newRows st.nextDetailId inst.id vd.details := by
    rw [hdet, List.filter_append]
    have h1 : (st.details.filter (fun r => r.invoice ≠ inst.id)).filter
        (fun r => r.invoice = inst.id) = [] := by
      refine List.filter_eq_nil_iff.mpr ?_
      intro r hr
      have hne := List.of_mem_filter hr
      simp only [decide_eq_true_eq] at hne ⊢
      simp [hne]
    have h2 : (newRows st.nextDetailId inst.id vd.details).filter
        (fun r => r.invoice = inst.id) = newRows st.nextDetailId inst.id vd.details := by
      refine List.filter_eq_self.mpr ?_
      intro r hr
      exact decide_eq_true (newRows_invoice _ _ _ r hr)
    rw [h1, h2, List.nil_append]
  refine ⟨?_, ?_, ?_⟩
  · rw [hfilter, newRows_payload]
  · rw [hfilter, newRows_length]
  · intro r hr hrinv
    rw [hdet]
    simp only [List.mem_append]
    rintro (hmem | hmem)
    · have := List.of_mem_filter hmem
      simp only [decide_eq_true_eq] at this
      exact this hrinv
    · have hge := newRows_id_ge _ _ _ r hmem
      have hlt := hfresh r hr
      omega

/-- C1 witness: the sample invoice holds 3 stored items; an update
submitting 1 item leaves exactly that 1 item keyed to it. -/
theorem update_full_replace_witness :
    ((update sampleStorage sampleInvoice sampleUpdate).1.details.filter
        (fun r => r.invoice = sampleInvoice.id)).map detailPayload
      = [⟨"Gadget", 1, 3⟩] :=
  (update_full_replace sampleStorage sampleInvoice sampleUpdate (by decide)).1

/-- C8: `update` overwrites exactly the header fields present in the
input, keeps the existing value for each absent one, preserves the
identifier, and saves that header back over the stored row with the
matching id. -/
theorem update_header_fields (st : Storage) (inst : Invoice) (vd : UpdateData) :
    ((update st inst vd).2.id = inst.id)
    ∧ (∀ x, vd.invoice_number = some x → (update st inst vd).2.invoice_number = x)
    ∧ (vd.invoice_number = none → (update st inst vd).2.invoice_number = inst.invoice_number)
    ∧ (∀ x, vd.customer_name = some x → (update st inst vd).2.customer_name = x)
    ∧ (vd.customer_name = none → (update st inst vd).2.customer_name = inst.customer_name)
    ∧ (∀ x, vd.date = some x → (update st inst vd).2.date = x)
    ∧ (vd.date = none → (update st inst vd).2.date = inst.date)
    ∧ (update st inst vd).1.invoices
        = st.invoices.map (fun i => if i.id = inst.id then (update st inst vd).2 else i) := by
  refine ⟨rfl, ?_, ?_, ?_, ?_, ?_, ?_, ?_⟩
  · intro x hx
    simp [update, hx]
  · intro hx
    simp [update, hx]
  · intro x hx
    simp [update, hx]
  · intro hx
    simp [update, hx]
  · intro x hx
    simp [update, hx]
  · intro hx
    simp [update, hx]
  · simp [update, create_details_invoices]

/-- C8 witness: updating the sample invoice with only a new customer
name keeps its number and date and overwrites the name. -/
theorem update_header_fields_witness :
    (update sampleStorage sampleInvoice ⟨none, some "Bob", none, []⟩).2.customer_name = "Bob"
    ∧ (update sampleStorage sampleInvoice ⟨none, some "Bob", none, []⟩).2.invoice_number
        = sampleInvoice.invoice_number :=
  ⟨(update_header_fields sampleStorage sampleInvoice ⟨none, some "Bob", none, []⟩
      ).2.2.2.1 "Bob" rfl,
    (update_header_fields sampleStorage sampleInvoice ⟨none, some "Bob", none, []⟩
      ).2.2.1 rfl⟩

/-- C9: `delete` removes the invoice's detail rows first — after that
step alone the header rows are untouched — then removes the header;
afterwards no detail row keyed to the invoice and no header row with its
id remains, anything unrelated survives, and the confirmation message is
returned. -/
theorem delete_cascade (st : Storage) (inst : Invoice) :
    ((deleteDetailsStep st inst).invoices = st.invoices)
    ∧ (∀ r ∈ (deleteDetailsStep st inst).details, r.invoice ≠ inst.id)
    ∧ (delete st inst).1 = deleteHeaderStep (deleteDetailsStep st inst) inst
    ∧ (∀ r ∈ (delete st inst).1.details, r.invoice ≠ inst.id)
    ∧ (∀ i ∈ (delete st inst).1.invoices, i.id ≠ inst.id)
    ∧ (∀ r ∈ st.details, r.invoice ≠ inst.id → r ∈ (delete st inst).1.details)
    ∧ (∀ i ∈ st.invoices, i.id ≠ inst.id → i ∈ (delete st inst).1.invoices)
    ∧ (delete st inst).2 = "Invoice and its details deleted successfully." := by
  refine ⟨rfl, ?_, rfl, ?_, ?_, ?_, ?_, rfl⟩
  · intro r hr
    have := List.of_mem_filter hr
    simpa using this
  · intro r hr
    have := List.of_mem_filter hr
    simpa using this
  · intro i hi
    have := List.of_mem_filter hi
    simpa using this
  · intro r hr hne
    exact List.mem_filter.mpr ⟨hr, by simpa using hne⟩
  · intro i hi hne
    exact List.mem_filter.mpr ⟨hi, by simpa using hne⟩

/-- C9 witness: deleting the sample invoice from a storage that also
holds an unrelated detail row keeps that row and returns the
confirmation message. -/
theorem delete_cascade_witness :
    (⟨7, 9, "Other", 1, 1⟩ : InvoiceDetail)
        ∈ (delete ⟨[sampleInvoice], [sampleDetail 1, ⟨7, 9, "Other", 1, 1⟩], 2, 8⟩
            sampleInvoice).1.details
    ∧ (delete ⟨[sampleInvoice], [sampleDetail 1, ⟨7, 9, "Other", 1, 1⟩], 2, 8⟩
        sampleInvoice).2
        = "Invoice and its details deleted successfully." :=
  ⟨(delete_cascade ⟨[sampleInvoice], [sampleDetail 1, ⟨7, 9, "Other", 1, 1⟩], 2, 8⟩
        sampleInvoice).2.2.2.2.2.1 ⟨7, 9, "Other", 1, 1⟩ (by decide) (by decide),
    (delete_cascade ⟨[sampleInvoice], [sampleDetail 1, ⟨7, 9, "Other", 1, 1⟩], 2, 8⟩
        sampleInvoice).2.2.2.2.2.2.2⟩

end Invoices
